import Mathlib

/-!
Verification development for the Wanderlust travel-planning application.

The definitions below are a shallow embedding, into Lean, of the program's
core generation pipeline: the scene classifier's instant tier, the robust
JSON response parser, the itinerary-skeleton merge, the per-day worker and
its parallel orchestrator, the streaming orchestrator, the single-day HTML
splice, the version ledger, and the single-day regeneration entry point.

External collaborators (the hosted language model, the place lookup, the
image lookup) and the JavaScript built-ins `JSON.parse` and
`encodeURIComponent` are modelled as explicit oracle parameters: a network
call that can reject is an `Except`-valued input, a lookup that can miss is
an `Option`-valued input.  JavaScript strings are modelled as `String` /
`List Char`; wall-clock timestamps are threaded as `Nat` arguments.
-/

namespace Wanderlust

/-! ## String utilities (JavaScript string operations on `List Char`) -/

/-- Lowercase a string to a character list, as `input.toLowerCase()` acts on
the characters relevant here (ASCII letters; CJK characters are fixed). -/
def lowerStr (s : String) : List Char :=
  s.data.map Char.toLower

/-- Whether `pat` occurs in `hay` starting at index `i`. -/
def occursAt (hay pat : List Char) (i : Nat) : Bool :=
  decide ((hay.drop i).take pat.length = pat)

/-- JavaScript `hay.includes(pat)`: `pat` occurs somewhere in `hay`. -/
def containsSub (hay pat : List Char) : Bool :=
  (List.range (hay.length + 1)).any (occursAt hay pat)

/-- JavaScript `String.prototype.trim` on a character list. -/
def trimChars (s : List Char) : List Char :=
  ((s.dropWhile Char.isWhitespace).reverse.dropWhile Char.isWhitespace).reverse

/-- JavaScript `s.startsWith(p)`. -/
def startsWithChars (s p : List Char) : Bool :=
  decide (s.take p.length = p)

/-- JavaScript `s.endsWith(p)`. -/
def endsWithChars (s p : List Char) : Bool :=
  decide (p.length ≤ s.length) && decide (s.drop (s.length - p.length) = p)

/-- JavaScript `s.lastIndexOf(c)` (as an `Option` instead of `-1`). -/
def lastIdxOf (s : List Char) (c : Char) : Option Nat :=
  match s.reverse.findIdx? (· = c) with
  | some i => some (s.length - 1 - i)
  | none => none

/-- JavaScript `v || d` for a possibly-absent string field: `undefined`,
`null` and the empty string are falsy and select the default. -/
def jsOr (v : Option String) (d : String) : String :=
  match v with
  | some s => if s = "" then d else s
  | none => d

/-- JavaScript `s || d` for a present string: the empty string is falsy. -/
def jsOrStr (s d : String) : String :=
  if s = "" then d else s

/-! ## Scene classifier: `SceneType`, `SCENE_KEYWORDS`, `IntentAgent.quickPredict` -/

/-- The eight scene categories of `SceneType` (src/unnamed/part_009),
in the enumeration's declaration order. -/
inductive SceneType where
  | romantic
  | family
  | adventure
  | business
  | foodie
  | culture
  | relaxation
  | solo
deriving DecidableEq, Repr

/-- The fixed bilingual keyword table `SCENE_KEYWORDS` of
src/services/agent/dayAgent.ts (IntentAgent section). -/
def SCENE_KEYWORDS : SceneType → List String
  | .romantic =>
      ["情侣", "蜜月", "纪念日", "求婚", "浪漫", "二人世界", "情人节",
       "honeymoon", "anniversary", "romantic", "couple", "proposal"]
  | .family =>
      ["亲子", "家庭", "小孩", "孩子", "儿童", "带娃", "全家", "老人",
       "family", "kids", "children", "parents", "baby", "toddler"]
  | .adventure =>
      ["探险", "徒步", "登山", "露营", "户外", "极限", "越野", "攀岩",
       "adventure", "hiking", "climbing", "camping", "outdoor", "extreme"]
  | .business =>
      ["商务", "出差", "会议", "考察", "团建", "客户", "展览",
       "business", "work", "meeting", "conference", "corporate"]
  | .foodie =>
      ["美食", "吃货", "餐厅", "小吃", "美食之旅", "品鉴", "料理",
       "food", "foodie", "cuisine", "culinary", "restaurant", "gastronomy"]
  | .culture =>
      ["文化", "历史", "博物馆", "古迹", "艺术", "建筑", "人文",
       "culture", "history", "museum", "heritage", "art", "architecture"]
  | .relaxation =>
      ["度假", "休闲", "放松", "海滩", "海岛", "温泉", "度假村", "疗养",
       "relax", "vacation", "beach", "resort", "spa", "island", "leisure"]
  | .solo =>
      ["独行", "独自", "一个人", "solo", "独自旅行", "穷游", "背包客",
       "solo", "alone", "backpack", "independent"]

/-- The iteration order of the `scores` record in `quickPredict`
(JavaScript object-literal insertion order). -/
def sceneOrder : List SceneType :=
  [.romantic, .family, .adventure, .business, .foodie, .culture, .relaxation, .solo]

/-- The keyword-match score one category receives for an input: the number
of its keywords (with multiplicity) occurring as substrings of the
lowercased input, each keyword itself lowercased before the test. -/
def sceneScore (input : String) (s : SceneType) : Nat :=
  (SCENE_KEYWORDS s).countP (fun kw => containsSub (lowerStr input) (lowerStr kw))

/-- One step of the selection loop of `quickPredict`: a category replaces
the running `(maxScore, predictedScene)` only when its score is strictly
greater. -/
def stepMax (f : SceneType → Nat) (acc : Nat × SceneType) (s : SceneType) : Nat × SceneType :=
  if f s > acc.1 then (f s, s) else acc

/-- `IntentAgent.quickPredict` (src/services/agent/dayAgent.ts): lowercase
the input, score all eight categories against `SCENE_KEYWORDS`, then scan
the categories in declaration order keeping the first strict maximum,
starting from `(0, RELAXATION)`. -/
def quickPredict (input : String) : SceneType :=
  (sceneOrder.foldl (stepMax (sceneScore input)) (0, SceneType.relaxation)).2

/-- Modelled from the claim's wording (not from the source): return the
first category in the fixed order with at least one keyword hit, or the
default category `relaxation` when no keyword of any category occurs. -/
def firstHitPredict (input : String) : SceneType :=
  match sceneOrder.find? (fun s => decide (0 < sceneScore input s)) with
  | some s => s
  | none => SceneType.relaxation

theorem foldl_stepMax_of_le (f : SceneType → Nat) :
    ∀ (l : List SceneType) (acc : Nat × SceneType),
      (∀ s ∈ l, f s ≤ acc.1) → l.foldl (stepMax f) acc = acc := by
  intro l
  induction l with
  | nil => intro acc _; rfl
  | cons hd tl ih =>
      intro acc h
      have hhd : f hd ≤ acc.1 := h hd (by simp)
      have hstep : stepMax f acc hd = acc := by
        unfold stepMax
        have : ¬ f hd > acc.1 := by omega
        simp [this]
      simp only [List.foldl_cons, hstep]
      exact ih acc (fun s hs => h s (by simp [hs]))

theorem foldl_stepMax_lt (f : SceneType → Nat) :
    ∀ (l : List SceneType) (acc : Nat × SceneType) (B : Nat),
      acc.1 < B → (∀ s ∈ l, f s < B) → (l.foldl (stepMax f) acc).1 < B := by
  intro l
  induction l with
  | nil => intro acc B hacc _; simpa using hacc
  | cons hd tl ih =>
      intro acc B hacc h
      simp only [List.foldl_cons]
      apply ih
      · unfold stepMax
        by_cases hc : f hd > acc.1
        · simpa [hc] using h hd (by simp)
        · simpa [hc] using hacc
      · exact fun s hs => h s (by simp [hs])

theorem foldl_stepMax_select (f : SceneType → Nat) (pre : List SceneType)
    (c : SceneType) (post : List SceneType) (acc : Nat × SceneType)
    (hpre : ∀ t ∈ pre, f t < f c) (hacc : acc.1 < f c)
    (hpost : ∀ t ∈ post, f t ≤ f c) :
    (pre ++ c :: post).foldl (stepMax f) acc = (f c, c) := by
  have h1 : (pre.foldl (stepMax f) acc).1 < f c :=
    foldl_stepMax_lt f pre acc (f c) hacc hpre
  set r := pre.foldl (stepMax f) acc with hr
  have h2 : stepMax f r c = (f c, c) := by
    unfold stepMax
    rw [if_pos (show f c > r.1 by omega)]
  calc (pre ++ c :: post).foldl (stepMax f) acc
      = (c :: post).foldl (stepMax f) r := by
        rw [List.foldl_append]
    _ = post.foldl (stepMax f) (f c, c) := by rw [List.foldl_cons, h2]
    _ = (f c, c) := foldl_stepMax_of_le f post (f c, c) hpost

/-- C7: the instant tier is NOT "first category with at least one hit": on
the input "romantic family kids" the first category in the fixed order with
a hit is `romantic` (one hit), but `quickPredict` returns `family` (two
hits), because the code keeps the category with the strictly greatest
score, not the first category with a nonzero score. -/
theorem quickPredict_counterexample :
    firstHitPredict "romantic family kids" = SceneType.romantic ∧
    0 < sceneScore "romantic family kids" SceneType.romantic ∧
    quickPredict "romantic family kids" = SceneType.family := by
  exact ⟨by decide, by decide, by decide⟩

/-- C7 (amended): `quickPredict` lowercases the input, scores each of the 8
scene categories by counting fixed bilingual keywords occurring as
substrings, and returns the category with the maximum score, earlier
categories in the fixed order winning ties; when no keyword of any category
occurs it returns the default `relaxation`.  It is a pure (synchronous,
deterministic) function of the input string. -/
theorem quickPredict_spec (input : String) :
    ((∀ t ∈ sceneOrder, sceneScore input t = 0) →
        quickPredict input = SceneType.relaxation)
    ∧ (∀ pre c post, sceneOrder = pre ++ c :: post →
        (∀ t ∈ pre, sceneScore input t < sceneScore input c) →
        (∀ t ∈ sceneOrder, sceneScore input t ≤ sceneScore input c) →
        0 < sceneScore input c →
        quickPredict input = c) := by
  constructor
  · intro h
    unfold quickPredict
    rw [foldl_stepMax_of_le (sceneScore input) sceneOrder (0, SceneType.relaxation)
      (fun s hs => by rw [h s hs])]
  · intro pre c post hdecomp hpre hall hpos
    unfold quickPredict
    rw [hdecomp]
    rw [foldl_stepMax_select (sceneScore input) pre c post (0, SceneType.relaxation)
      hpre hpos (fun t ht => hall t (by rw [hdecomp]; exact List.mem_append_right _ (List.mem_cons_of_mem _ ht)))]

/-- Witness for the amended C7 theorem: on the input "hiking" only the
`adventure` category scores, and `quickPredict` returns it. -/
theorem quickPredict_spec_witness : quickPredict "hiking" = SceneType.adventure :=
  (quickPredict_spec "hiking").2
    [SceneType.romantic, SceneType.family] SceneType.adventure
    [SceneType.business, SceneType.foodie, SceneType.culture, SceneType.relaxation, SceneType.solo]
    (by decide) (by decide) (by decide) (by decide)

/-! ## Response parser: `parseAIJsonResponse` (src/services/glmService.test.ts) -/

/-- The two failure modes of `parseAIJsonResponse`: the explicit
`throw new Error("No valid JSON object found in response")`, and an
exception escaping from `JSON.parse`.  Both are thrown errors that a
caller's `try`/`catch` observes; `Except` models both as values. -/
inductive JsonParseError where
  | noJsonObject
  | parseThrew
deriving DecidableEq, Repr

/-- The fence-stripping preamble of `parseAIJsonResponse`: trim, drop a
leading "```json" (7 characters) or "```" (3 characters) marker, drop a
trailing "```" marker, trim again. -/
def stripFences (text : List Char) : List Char :=
  let cleaned := trimChars text
  let cleaned :=
    if startsWithChars cleaned ("```json".data) then cleaned.drop 7
    else if startsWithChars cleaned ("```".data) then cleaned.drop 3
    else cleaned
  let cleaned :=
    if endsWithChars cleaned ("```".data) then cleaned.take (cleaned.length - 3)
    else cleaned
  trimChars cleaned

/-- `parseAIJsonResponse` (src/services/glmService.test.ts): strip fences,
find the first `{` and the last `}`, fail when either is missing or the
first `{` is not strictly before the last `}`, otherwise slice between
them inclusive and hand the slice to `JSON.parse` — modelled by the
`jsonParse` oracle, whose `none` is a thrown `SyntaxError`. -/
def parseAIJsonResponse {α : Type} (jsonParse : List Char → Option α)
    (text : List Char) : Except JsonParseError α :=
  let cleaned := stripFences text
  match cleaned.findIdx? (· = '{'), lastIdxOf cleaned '}' with
  | some firstBrace, some lastBrace =>
      if lastBrace ≤ firstBrace then .error .noJsonObject
      else
        match jsonParse ((cleaned.drop firstBrace).take (lastBrace + 1 - firstBrace)) with
        | some v => .ok v
        | none => .error .parseThrew
  | some _, none => .error .noJsonObject
  | none, _ => .error .noJsonObject

/-- Unfolding equation for `parseAIJsonResponse` with the intermediate
`let` reduced. -/
theorem parseAIJsonResponse_eq {α : Type} (jsonParse : List Char → Option α)
    (text : List Char) :
    parseAIJsonResponse jsonParse text =
      match (stripFences text).findIdx? (· = '{'), lastIdxOf (stripFences text) '}' with
      | some firstBrace, some lastBrace =>
          if lastBrace ≤ firstBrace then .error .noJsonObject
          else
            match jsonParse (((stripFences text).drop firstBrace).take (lastBrace + 1 - firstBrace)) with
            | some v => .ok v
            | none => .error .parseThrew
      | some _, none => .error .noJsonObject
      | none, _ => .error .noJsonObject := rfl

/-- C2: for every input string the parser strips fence tokens (via
`stripFences`), slices from the first `{` to the last `}` inclusive and
parses that slice; it fails with a deterministic error value — never a
result — exactly when no opening/closing brace pair exists (first `{`
missing, last `}` missing, or the first `{` not before the last `}`) or
when `JSON.parse` throws; being an `Except` value, the error is catchable
by callers. -/
theorem parseAIJsonResponse_spec {α : Type} (jsonParse : List Char → Option α)
    (text : List Char) :
    (∀ i j, (stripFences text).findIdx? (· = '{') = some i →
        lastIdxOf (stripFences text) '}' = some j → i < j →
        parseAIJsonResponse jsonParse text =
          match jsonParse (((stripFences text).drop i).take (j + 1 - i)) with
          | some v => Except.ok v
          | none => Except.error JsonParseError.parseThrew)
    ∧ (((stripFences text).findIdx? (· = '{') = none ∨
        lastIdxOf (stripFences text) '}' = none ∨
        (∃ i j, (stripFences text).findIdx? (· = '{') = some i ∧
          lastIdxOf (stripFences text) '}' = some j ∧ j ≤ i)) →
        parseAIJsonResponse jsonParse text = Except.error JsonParseError.noJsonObject)
    ∧ (∀ v, parseAIJsonResponse jsonParse text = Except.ok v →
        ∃ i j, (stripFences text).findIdx? (· = '{') = some i ∧
          lastIdxOf (stripFences text) '}' = some j ∧ i < j ∧
          jsonParse (((stripFences text).drop i).take (j + 1 - i)) = some v) := by
  refine ⟨?_, ?_, ?_⟩
  · intro i j hi hj hij
    rw [parseAIJsonResponse_eq, hi, hj]
    dsimp only
    rw [if_neg (show ¬ j ≤ i by omega)]
  · intro h
    rw [parseAIJsonResponse_eq]
    rcases hfi : (stripFences text).findIdx? (· = '{') with _ | i <;>
      rcases hla : lastIdxOf (stripFences text) '}' with _ | j
    · rfl
    · rfl
    · rfl
    · rcases h with h | h | ⟨i', j', hi', hj', hle⟩
      · exact absurd hfi (by rw [h]; simp)
      · exact absurd hla (by rw [h]; simp)
      · rw [hfi] at hi'
        rw [hla] at hj'
        cases hi'
        cases hj'
        dsimp only
        rw [if_pos hle]
  · rw [parseAIJsonResponse_eq]
    rcases hfi : (stripFences text).findIdx? (· = '{') with _ | i <;>
      rcases hla : lastIdxOf (stripFences text) '}' with _ | j <;>
        dsimp only <;> intro v hv
    · simp at hv
    · simp at hv
    · simp at hv
    · by_cases hij : j ≤ i
      · rw [if_pos hij] at hv
        simp at hv
      · rw [if_neg hij] at hv
        refine ⟨i, j, rfl, rfl, by omega, ?_⟩
        rcases hp : jsonParse (((stripFences text).drop i).take (j + 1 - i)) with _ | w <;>
          rw [hp] at hv
        · simp at hv
        · simpa using hv

/-- Witness for the C2 theorem: a fenced JSON object in a noisy response is
sliced out and handed to the parse oracle, whose value is returned. -/
theorem parseAIJsonResponse_spec_witness :
    parseAIJsonResponse
      (fun s => if s = "\x7b\"a\":1\x7d".data then some 1 else none)
      "```json\n\x7b\"a\":1\x7d\n```".data = Except.ok 1 := by
  have h := (parseAIJsonResponse_spec
      (fun s => if s = "\x7b\"a\":1\x7d".data then some 1 else none)
      "```json\n\x7b\"a\":1\x7d\n```".data).1 0 6 (by decide) (by decide) (by decide)
  rw [h]
  rfl

/-! ## Data model (src/unnamed/part_009: types.ts) -/

/-- Font pairing configuration. -/
structure FontConfig where
  headingFont : String
  bodyFont : String
  googleFontUrl : String
deriving DecidableEq, Repr

/-- Hero section style token. -/
inductive HeroStyle where
  | centered
  | magazine
  | minimal
deriving DecidableEq, Repr

/-- `VisualIdentity`: the output of the visual-identity stage. -/
structure VisualIdentity where
  destination : String
  duration : Nat
  vibe : String
  palette : String
  heroStyle : HeroStyle
  fontConfig : FontConfig
  heroImage : Option String := none
  sceneType : Option SceneType := none
deriving DecidableEq, Repr

/-- `DayPlanSkeleton`: one day's outline inside a `TripSkeleton`. -/
structure DayPlanSkeleton where
  day : Nat
  title : String
  theme : String
  city : String
  visualKeyword : String
deriving DecidableEq, Repr

/-- A highlight triple of the itinerary overview. -/
structure Highlight where
  icon : String
  title : String
  desc : String
deriving DecidableEq, Repr

/-- `ItineraryStructure`: the fields contributed by the skeleton stage. -/
structure ItineraryStructure where
  summary : String
  highlights : List Highlight
  days : List DayPlanSkeleton
deriving DecidableEq, Repr

/-- `TripSkeleton extends VisualIdentity, ItineraryStructure`. -/
structure TripSkeleton extends VisualIdentity, ItineraryStructure
deriving DecidableEq, Repr

/-- `LocationData` of an activity. -/
structure LocationData where
  name : String
  lat : Option Int := none
  lng : Option Int := none
  address : Option String := none
deriving DecidableEq, Repr

/-- `Activity`: one activity of a day plan. -/
structure Activity where
  title : String
  description : String
  time : String
  location : LocationData
  tips : Option String := none
deriving DecidableEq, Repr

/-- `DayPlan`: one fully generated day. -/
structure DayPlan where
  day : Nat
  title : String
  theme : String
  city : String
  activities : List Activity
deriving DecidableEq, Repr

/-! ## Itinerary skeleton stage: `generateItineraryStructure`
(src/services/glmService.test.ts) -/

/-- `generateItineraryStructure`, after its collaborator call and
`parseAIJsonResponse` succeed: the function returns the spread
`{ ...visual, ...data }` — the parsed `summary`, `highlights` and `days`
are merged verbatim over the visual identity.  The parsed payload `data`
is the oracle input; no day-count reconciliation appears in the source. -/
def generateItineraryStructure (visual : VisualIdentity) (data : ItineraryStructure) :
    TripSkeleton :=
  { toVisualIdentity := visual, toItineraryStructure := data }

/-- A concrete visual identity used by counterexamples: three days. -/
def visualThreeDays : VisualIdentity :=
  { destination := "Tokyo"
    duration := 3
    vibe := "citywalk"
    palette := "stone"
    heroStyle := .centered
    fontConfig := { headingFont := "Noto Serif SC", bodyFont := "Noto Sans SC", googleFontUrl := "https://fonts.googleapis.com/css2" } }

/-- A concrete parsed skeleton payload with only two day entries. -/
def twoDayPayload : ItineraryStructure :=
  { summary := "a short trip"
    highlights := []
    days :=
      [ { day := 1, title := "Day 1", theme := "food", city := "Tokyo", visualKeyword := "tokyo food" },
        { day := 2, title := "Day 2", theme := "culture", city := "Tokyo", visualKeyword := "tokyo temple" } ] }

/-- C3 counterexample: when the collaborator's JSON contains two day
entries but the visual identity's `duration` is three, the produced
`TripSkeleton` keeps the two entries as-is — `len(days) ≠ duration`, no
placeholder day is synthesized and nothing is truncated.  The claimed
truncate/pad reconciliation does not exist in the code. -/
theorem generateItineraryStructure_counterexample :
    (generateItineraryStructure visualThreeDays twoDayPayload).days.length = 2 ∧
    (generateItineraryStructure visualThreeDays twoDayPayload).duration = 3 ∧
    ¬ ((generateItineraryStructure visualThreeDays twoDayPayload).days.length
        = (generateItineraryStructure visualThreeDays twoDayPayload).duration) := by
  exact ⟨rfl, rfl, by decide⟩

/-- C3 (amended): the skeleton generator passes the collaborator's parsed
day list through unmodified and keeps the visual identity's duration, so
`len(days) = duration` (and day numbering `1..duration`) holds exactly when
the collaborator itself returns such a list — there is no truncation or
padding repair. -/
theorem generateItineraryStructure_spec (visual : VisualIdentity)
    (data : ItineraryStructure) :
    (generateItineraryStructure visual data).days = data.days ∧
    (generateItineraryStructure visual data).summary = data.summary ∧
    (generateItineraryStructure visual data).highlights = data.highlights ∧
    (generateItineraryStructure visual data).duration = visual.duration ∧
    (generateItineraryStructure visual data).destination = visual.destination :=
  ⟨rfl, rfl, rfl, rfl, rfl⟩

/-! ## Day Worker: `DayAgent` (src/services/agent/dayAgent.ts) -/

/-- A place-lookup hit from `AmapService.searchPlace`. -/
structure AmapPOI where
  name : String
  lat : Int
  lng : Int
  address : Option String := none
  city : String
deriving DecidableEq, Repr

/-- One element of the JSON array produced by the activity-generation call,
before field defaulting; `none` is an absent (`undefined`) field. -/
structure RawActivity where
  time : Option String := none
  title : Option String := none
  description : Option String := none
  location : Option String := none
deriving DecidableEq, Repr

/-- JavaScript truthiness of a possibly-absent numeric field. -/
def jsTruthyNum (o : Option Int) : Bool :=
  match o with
  | some n => decide (n ≠ 0)
  | none => false

/-- JavaScript truthiness of a possibly-absent string field. -/
def jsTruthyStr (o : Option String) : Bool :=
  match o with
  | some s => decide (s ≠ "")
  | none => false

/-- `DayAgent.getDefaultActivities`: the fixed 4-activity fallback sequence
(morning exploration of the day's city / lunch / afternoon culture /
evening leisure). -/
def getDefaultActivities (daySkeleton : DayPlanSkeleton) : List Activity :=
  [ { time := "09:00", title := "探索" ++ daySkeleton.city,
      description := "开始一天的精彩旅程", location := { name := daySkeleton.city } },
    { time := "12:00", title := "午餐时间",
      description := "品尝当地特色美食", location := { name := "当地餐厅" } },
    { time := "14:00", title := "文化体验",
      description := "深入了解当地文化", location := { name := "文化景点" } },
    { time := "18:00", title := "晚餐与休闲",
      description := "享受轻松的晚餐时光", location := { name := "美食街区" } } ]

/-- `DayAgent.parseActivities`: the fenced/bracket regex extraction plus
`JSON.parse` plus the array check are modelled by the `parse` oracle
(`none` covers "no JSON array found", a parse exception and a non-array
value — every path of the source's `catch`).  On success each element gets
its field defaults; on any failure the fixed default sequence is
returned.  The function never throws. -/
def parseActivities (parse : String → Option (List RawActivity))
    (daySkeleton : DayPlanSkeleton) (response : String) : List Activity :=
  match parse response with
  | some acts =>
      acts.map (fun act =>
        { time := jsOr act.time "09:00"
          title := jsOr act.title "活动"
          description := jsOr act.description ""
          location := { name := jsOr act.location "" } })
  | none => getDefaultActivities daySkeleton

/-- `DayAgent.enrichWithPOI`: enrich each activity with a place lookup.
The lookup oracle's `none` covers both a miss and a thrown lookup error
(the source catches the error and keeps the activity unchanged). -/
def enrichWithPOI (searchPlace : String → String → Option AmapPOI)
    (city : String) (activities : List Activity) : List Activity :=
  activities.map (fun activity =>
    if activity.location.name ≠ "" then
      match searchPlace activity.location.name city with
      | some poi =>
          { activity with
              location :=
                { activity.location with
                    name := poi.name
                    lat := some poi.lat
                    lng := some poi.lng
                    address := some (jsOr poi.address poi.city) } }
      | none => activity
    else activity)

/-- `DayAgent.generateMapUrl`; `enc` models `encodeURIComponent`. -/
def generateMapUrl (enc : String → String) (lat lng : Int) (city : String) : String :=
  "https://uri.amap.com/marker?position=" ++ toString lng ++ "," ++ toString lat
    ++ "&name=" ++ enc city

/-- `DayAgent.generateActivityHtml` (static inline SVG markup elided; every
dynamic interpolation is kept in source order). -/
def generateActivityHtml (enc : String → String) (trip : TripSkeleton)
    (daySkeleton : DayPlanSkeleton) (activity : Activity) : String :=
  let mapUrl :=
    if jsTruthyNum activity.location.lat && jsTruthyNum activity.location.lng then
      generateMapUrl enc (activity.location.lat.getD 0) (activity.location.lng.getD 0)
        daySkeleton.city
    else "#"
  "\n      <div class=\"activity-item bg-" ++ trip.palette
    ++ "-50 rounded-xl p-4 hover:shadow-md transition-shadow\">\n"
    ++ "        <div class=\"flex items-start space-x-3\">\n"
    ++ "          <div class=\"flex-shrink-0 w-16 text-center\">\n"
    ++ "            <span class=\"inline-block bg-" ++ trip.palette
    ++ "-500 text-white px-3 py-1 rounded-full text-sm font-medium\">"
    ++ activity.time ++ "</span>\n"
    ++ "          </div>\n"
    ++ "          <div class=\"flex-1\">\n"
    ++ "            <h3 class=\"font-bold text-lg text-slate-800\">" ++ activity.title ++ "</h3>\n"
    ++ "            <p class=\"text-slate-600 text-sm mt-1\">" ++ activity.description ++ "</p>\n"
    ++ (if activity.location.name ≠ "" then
          "            <a href=\"" ++ mapUrl
            ++ "\" target=\"_blank\" class=\"inline-flex items-center mt-2 text-sm text-blue-600 hover:text-blue-800\">"
            ++ activity.location.name ++ "</a>\n"
        else "")
    ++ (if jsTruthyStr activity.tips then
          "            <div class=\"mt-2 p-2 bg-yellow-50 rounded-lg\"><p class=\"text-xs text-yellow-800\">💡 "
            ++ (activity.tips.getD "") ++ "</p></div>\n"
        else "")
    ++ "          </div>\n        </div>\n      </div>\n"

/-- `DayAgent.generateHTML` (static inline SVG markup elided). -/
def generateHTML (enc : String → String) (trip : TripSkeleton)
    (daySkeleton : DayPlanSkeleton) (dayPlan : DayPlan) (images : List String) : String :=
  let palette := trip.palette
  let activitiesHtml :=
    String.intercalate "\n" (dayPlan.activities.map (generateActivityHtml enc trip daySkeleton))
  let imagesHtml :=
    String.intercalate "\n" (images.map (fun img =>
      "<img src=\"" ++ img ++ "\" alt=\"" ++ dayPlan.theme
        ++ "\" class=\"w-full h-32 object-cover rounded-lg\" />"))
  let firstLat := match dayPlan.activities with
    | a :: _ => a.location.lat.getD 0
    | [] => 0
  let firstLng := match dayPlan.activities with
    | a :: _ => a.location.lng.getD 0
    | [] => 0
  let mapUrl := generateMapUrl enc firstLat firstLng dayPlan.city
  "\n      <section class=\"day-section mb-8\" data-day=\"" ++ toString dayPlan.day ++ "\">\n"
    ++ "        <div class=\"bg-white rounded-2xl shadow-lg overflow-hidden\">\n"
    ++ "          <div class=\"bg-" ++ palette ++ "-500 text-white p-6\">\n"
    ++ "            <h2 class=\"text-2xl font-bold\">Day " ++ toString dayPlan.day ++ ": "
    ++ dayPlan.title ++ "</h2>\n"
    ++ "            <p class=\"text-" ++ palette ++ "-100 mt-1\">" ++ dayPlan.theme ++ "</p>\n"
    ++ "          </div>\n"
    ++ "          <div class=\"grid lg:grid-cols-2 gap-6 p-6\">\n"
    ++ "            <div class=\"space-y-4\">\n"
    ++ "              <div class=\"grid grid-cols-2 gap-3\">\n"
    ++ imagesHtml ++ "\n              </div>\n"
    ++ "              <a href=\"" ++ mapUrl
    ++ "\" target=\"_blank\" class=\"block bg-blue-50 hover:bg-blue-100 rounded-xl p-4 transition-colors\">在高德地图中查看 一键导航至第一天起点</a>\n"
    ++ "              <button onclick=\"window.parent.postMessage(\x7btype:'modify_day', day:"
    ++ toString dayPlan.day
    ++ "\x7d, '*')\" class=\"w-full bg-slate-100 hover:bg-slate-200 text-slate-700 rounded-xl p-4 transition-colors\">我想修改 Day "
    ++ toString dayPlan.day ++ "</button>\n"
    ++ "            </div>\n"
    ++ "            <div class=\"space-y-4\">\n" ++ activitiesHtml ++ "\n            </div>\n"
    ++ "          </div>\n        </div>\n      </section>\n    "

/-- `DayGenerationResult`: one worker's output.  The wall-clock latency
`generatedAt` is modelled as 0. -/
structure DayGenerationResult where
  dayNumber : Nat
  skeleton : DayPlanSkeleton
  dayPlan : DayPlan
  html : String
  generatedAt : Nat
deriving DecidableEq, Repr

/-- The body of `DayAgent.generate` after the step-1 network call
succeeded with `responseText`: parse (with fallback), enrich, fetch images
(the already-caught image oracle is `images`), build the `DayPlan`, render
the HTML. -/
def dayWorkerResult (parse : String → Option (List RawActivity))
    (searchPlace : String → String → Option AmapPOI) (enc : String → String)
    (images : List String) (responseText : String)
    (daySkeleton : DayPlanSkeleton) (trip : TripSkeleton) : DayGenerationResult :=
  let activities := parseActivities parse daySkeleton responseText
  let enrichedActivities := enrichWithPOI searchPlace daySkeleton.city activities
  let dayPlan : DayPlan :=
    { day := daySkeleton.day
      title := daySkeleton.title
      theme := daySkeleton.theme
      city := daySkeleton.city
      activities := enrichedActivities }
  { dayNumber := daySkeleton.day
    skeleton := daySkeleton
    dayPlan := dayPlan
    html := generateHTML enc trip daySkeleton dayPlan images
    generatedAt := 0 }

/-- `DayAgent.generate`: the step-1 network call is the `network` oracle;
its rejection is re-thrown (`catch { throw error }`), every later step is
total, so the returned promise rejects exactly when `network` does. -/
def dayAgentGenerate (parse : String → Option (List RawActivity))
    (searchPlace : String → String → Option AmapPOI) (enc : String → String)
    (images : List String) (network : Except String String)
    (daySkeleton : DayPlanSkeleton) (trip : TripSkeleton) :
    Except String DayGenerationResult :=
  match network with
  | .error e => .error e
  | .ok responseText =>
      .ok (dayWorkerResult parse searchPlace enc images responseText daySkeleton trip)

/-! ## Parallel Day Orchestrator: `generateDaysParallel`
(src/services/agent/dayAgent.ts) -/

/-- The `Promise.all` join over an already-ordered list of settled worker
outcomes: the first rejection (in list order) rejects the whole batch,
otherwise all values are collected in order. -/
def awaitAll {ε β : Type} : List (Except ε β) → Except ε (List β)
  | [] => .ok []
  | x :: xs =>
      match x with
      | .error e => .error e
      | .ok b =>
          match awaitAll xs with
          | .error e => .error e
          | .ok bs => .ok (b :: bs)

/-- `generateDaysParallel`: the source awaits `Promise.all` over batches of
`concurrency` (default 3) workers and concatenates batch results in
submission order; sequential all-or-nothing batches compose to one
all-or-nothing join over the whole list, which `awaitAll` models (the
batch width affects scheduling only, not the value).  The collected
results are then sorted ascending by `dayNumber` (`Array.prototype.sort`
with comparator `a.dayNumber - b.dayNumber`). -/
def generateDaysParallel (generate : DayPlanSkeleton → Except String DayGenerationResult)
    (daySkeletons : List DayPlanSkeleton) : Except String (List DayGenerationResult) :=
  match awaitAll (daySkeletons.map generate) with
  | .error e => .error e
  | .ok results => .ok (results.mergeSort (fun a b => decide (a.dayNumber ≤ b.dayNumber)))

/-- C5: a Day Worker whose activity-generation response cannot be parsed
(the parse oracle yields `none`) substitutes exactly the fixed 4-activity
default sequence and completes normally; and `generate()` rejects exactly
on — and with — the step-1 network call's rejection, never otherwise. -/
theorem dayAgent_fallback_spec (parse : String → Option (List RawActivity))
    (searchPlace : String → String → Option AmapPOI) (enc : String → String)
    (images : List String) (daySkeleton : DayPlanSkeleton) (trip : TripSkeleton) :
    (∀ response, parse response = none →
        parseActivities parse daySkeleton response = getDefaultActivities daySkeleton ∧
        (getDefaultActivities daySkeleton).length = 4 ∧
        dayAgentGenerate parse searchPlace enc images (.ok response) daySkeleton trip =
          .ok (dayWorkerResult parse searchPlace enc images response daySkeleton trip) ∧
        (dayWorkerResult parse searchPlace enc images response daySkeleton trip).dayPlan.activities =
          enrichWithPOI searchPlace daySkeleton.city (getDefaultActivities daySkeleton))
    ∧ (∀ e, dayAgentGenerate parse searchPlace enc images (.error e) daySkeleton trip = .error e)
    ∧ (∀ response, ∃ r,
        dayAgentGenerate parse searchPlace enc images (.ok response) daySkeleton trip = .ok r) := by
  refine ⟨?_, ?_, ?_⟩
  · intro response hparse
    refine ⟨?_, rfl, rfl, ?_⟩
    · unfold parseActivities
      rw [hparse]
    · unfold dayWorkerResult
      dsimp only
      unfold parseActivities
      rw [hparse]
  · intro e
    rfl
  · intro response
    exact ⟨_, rfl⟩

/-- A concrete day skeleton used by witnesses. -/
def sampleDaySkeleton : DayPlanSkeleton :=
  { day := 1, title := "Day 1", theme := "food", city := "Tokyo", visualKeyword := "tokyo food" }

/-- A second concrete day skeleton used by witnesses. -/
def sampleDaySkeleton2 : DayPlanSkeleton :=
  { day := 2, title := "Day 2", theme := "culture", city := "Tokyo", visualKeyword := "tokyo temple" }

/-- A concrete trip skeleton used by witnesses. -/
def sampleTrip : TripSkeleton :=
  { destination := "Tokyo"
    duration := 2
    vibe := "citywalk"
    palette := "stone"
    heroStyle := .centered
    fontConfig := { headingFont := "Noto Serif SC", bodyFont := "Noto Sans SC", googleFontUrl := "https://fonts.googleapis.com/css2" }
    summary := "a short trip"
    highlights := []
    days := [sampleDaySkeleton, sampleDaySkeleton2] }

/-- Witness for the C5 theorem at a concrete unparseable response. -/
theorem dayAgent_fallback_spec_witness :
    parseActivities (fun _ => none) sampleDaySkeleton "oops, not json"
        = getDefaultActivities sampleDaySkeleton ∧
    (getDefaultActivities sampleDaySkeleton).length = 4 ∧
    (∃ r, dayAgentGenerate (fun _ => none) (fun _ _ => none) (fun s => s) []
        (.ok "oops, not json") sampleDaySkeleton sampleTrip = .ok r) :=
  ⟨((dayAgent_fallback_spec (fun _ => none) (fun _ _ => none) (fun s => s) []
      sampleDaySkeleton sampleTrip).1 "oops, not json" rfl).1,
   ((dayAgent_fallback_spec (fun _ => none) (fun _ _ => none) (fun s => s) []
      sampleDaySkeleton sampleTrip).1 "oops, not json" rfl).2.1,
   (dayAgent_fallback_spec (fun _ => none) (fun _ _ => none) (fun s => s) []
      sampleDaySkeleton sampleTrip).2.2 "oops, not json"⟩

/-- `Promise.all` over pointwise-successful workers collects their results
in submission order. -/
theorem awaitAllMapOk {α β : Type} (f : α → Except String β) (g : α → β) :
    ∀ l : List α, (∀ x ∈ l, f x = .ok (g x)) → awaitAll (l.map f) = .ok (l.map g) := by
  intro l
  induction l with
  | nil => intro _; rfl
  | cons hd tl ih =>
      intro h
      have h1 := h hd (by simp)
      have h2 := ih (fun x hx => h x (by simp [hx]))
      simp [awaitAll, h1, h2]

/-- C6: when every Day Worker succeeds, `generateDaysParallel` returns one
result per input skeleton — a permutation of the per-skeleton worker
results — sorted ascending by `dayNumber` whatever the completion order,
and each result's `dayNumber` equals the `day` of the skeleton it was
generated from. -/
theorem generateDaysParallel_spec (parse : String → Option (List RawActivity))
    (searchPlace : String → String → Option AmapPOI) (enc : String → String)
    (images : DayPlanSkeleton → List String)
    (network : DayPlanSkeleton → Except String String)
    (resp : DayPlanSkeleton → String) (trip : TripSkeleton)
    (daySkeletons : List DayPlanSkeleton)
    (hok : ∀ sk ∈ daySkeletons, network sk = .ok (resp sk)) :
    ∃ l, generateDaysParallel
        (fun sk => dayAgentGenerate parse searchPlace enc (images sk) (network sk) sk trip)
        daySkeletons = .ok l
      ∧ l.length = daySkeletons.length
      ∧ List.Pairwise (fun a b => a.dayNumber ≤ b.dayNumber) l
      ∧ l.Perm (daySkeletons.map (fun sk =>
          dayWorkerResult parse searchPlace enc (images sk) (resp sk) sk trip))
      ∧ ∀ r ∈ l, ∃ sk ∈ daySkeletons,
          r = dayWorkerResult parse searchPlace enc (images sk) (resp sk) sk trip
          ∧ r.dayNumber = sk.day := by
  have hmap : ∀ sk ∈ daySkeletons,
      (fun sk => dayAgentGenerate parse searchPlace enc (images sk) (network sk) sk trip) sk
        = .ok (dayWorkerResult parse searchPlace enc (images sk) (resp sk) sk trip) := by
    intro sk hsk
    dsimp only
    rw [hok sk hsk]
    rfl
  have h1 := awaitAllMapOk _ _ daySkeletons hmap
  refine ⟨((daySkeletons.map (fun sk =>
      dayWorkerResult parse searchPlace enc (images sk) (resp sk) sk trip)).mergeSort
        (fun a b => decide (a.dayNumber ≤ b.dayNumber))), ?_, ?_, ?_, ?_, ?_⟩
  · unfold generateDaysParallel
    rw [h1]
  · rw [(List.mergeSort_perm _ _).length_eq, List.length_map]
  · have hs := @List.sorted_mergeSort DayGenerationResult
      (fun (a b : DayGenerationResult) => decide (a.dayNumber ≤ b.dayNumber))
      (fun a b c hab hbc => by
        simp only [decide_eq_true_eq] at *
        omega)
      (fun a b => by
        simp only [Bool.or_eq_true, decide_eq_true_eq]
        omega)
      (daySkeletons.map (fun sk =>
        dayWorkerResult parse searchPlace enc (images sk) (resp sk) sk trip))
    exact hs.imp (fun h => by simpa using h)
  · exact List.mergeSort_perm _ _
  · intro r hr
    have hr' : r ∈ daySkeletons.map (fun sk =>
        dayWorkerResult parse searchPlace enc (images sk) (resp sk) sk trip) :=
      (List.mergeSort_perm _ _).subset hr
    rcases List.mem_map.mp hr' with ⟨sk, hsk, hrsk⟩
    exact ⟨sk, hsk, hrsk.symm, by rw [← hrsk]; rfl⟩



/-- Witness for the C6 theorem: two skeletons whose workers both succeed. -/
theorem generateDaysParallel_spec_witness :
    ∃ l, generateDaysParallel
        (fun sk => dayAgentGenerate (fun _ => none) (fun _ _ => none) (fun s => s) []
          (Except.ok "resp") sk sampleTrip)
        [sampleDaySkeleton, sampleDaySkeleton2] = .ok l
      ∧ l.length = [sampleDaySkeleton, sampleDaySkeleton2].length
      ∧ List.Pairwise (fun a b => a.dayNumber ≤ b.dayNumber) l
      ∧ l.Perm ([sampleDaySkeleton, sampleDaySkeleton2].map (fun sk =>
          dayWorkerResult (fun _ => none) (fun _ _ => none) (fun s => s) [] "resp" sk sampleTrip))
      ∧ ∀ r ∈ l, ∃ sk ∈ [sampleDaySkeleton, sampleDaySkeleton2],
          r = dayWorkerResult (fun _ => none) (fun _ _ => none) (fun s => s) [] "resp" sk sampleTrip
          ∧ r.dayNumber = sk.day :=
  generateDaysParallel_spec (fun _ => none) (fun _ _ => none) (fun s => s)
    (fun _ => []) (fun _ => Except.ok "resp") (fun _ => "resp") sampleTrip
    [sampleDaySkeleton, sampleDaySkeleton2] (fun _ _ => rfl)

/-- The oracle of the C1 failing input: the worker for day 2 rejects, the
worker for day 1 succeeds. -/
def oneFailureNetwork : DayPlanSkeleton → Except String String :=
  fun sk => if sk.day = 2 then .error "network down" else .ok "[]"

/-- C1: `generateDaysParallel` joins each batch with `Promise.all`, so a
single rejecting worker rejects the whole call: on two skeletons where
only day 2's worker throws, the function rejects instead of returning two
results with a fallback in day 2's slot — contradicting both the spec and
the repository's own architecture document, which prescribes
`Promise.allSettled` with a per-day fallback. -/
theorem generateDaysParallel_oneFailure_rejects :
    generateDaysParallel
      (fun sk => dayAgentGenerate (fun _ => none) (fun _ _ => none) (fun s => s) []
        (oneFailureNetwork sk) sk sampleTrip)
      [sampleDaySkeleton, sampleDaySkeleton2] = .error "network down" := rfl

/-! ## Streaming orchestrator: `generateTravelPlanStream`
(src/services/glmService.test.ts) -/

/-- `SceneAnalysis` (confidence is carried as the rounded percentage the
stream prints, avoiding floating point). -/
structure SceneAnalysis where
  sceneType : SceneType
  confidencePct : Nat
  quickSummary : String
  recommendedTemplate : String
  keyHighlights : List String
  detectedKeywords : List String
deriving DecidableEq, Repr

/-- `RenderPhase` (src/unnamed/part_009). -/
inductive RenderPhase where
  | skeleton
  | header
  | overview
  | day1
  | remaining
  | shareView
  | complete
deriving DecidableEq, Repr

/-- One yielded chunk of the stream, tagged by the kind of `yield` in the
source: a JSON progress marker (`>>> {...}`), a log line (`>>> ...`), the
`<<<HTML_START>>>`-prefixed header, the `<<<SKELETON>>>` payload, a plain
markup fragment, a per-day markup fragment, and the error line yielded in
the `catch` before rethrowing. -/
inductive StreamChunk where
  | progress (phase : RenderPhase) (pct : Nat) (day : Option Nat)
  | log (msg : String)
  | htmlStart (html : String)
  | skeletonPayload (sk : TripSkeleton)
  | htmlFragment (s : String)
  | dayHtml (day : Nat) (s : String)
  | errorLog (msg : String)
deriving DecidableEq, Repr

/-- `TripDetails`. -/
structure TripDetails where
  prompt : String
deriving DecidableEq, Repr

/-- The string values of the `SceneType` enum. -/
def sceneTypeName : SceneType → String
  | .romantic => "romantic"
  | .family => "family"
  | .adventure => "adventure"
  | .business => "business"
  | .foodie => "foodie"
  | .culture => "culture"
  | .relaxation => "relaxation"
  | .solo => "solo"

/-- `Math.round (num / den)` on nonnegative operands. -/
def jsRoundFrac (num den : Nat) : Nat :=
  (2 * num + den) / (2 * den)

/-- The document header markup (Tailwind/style boilerplate abbreviated;
every dynamic interpolation kept).  A missing hero image interpolates as
the string "undefined", as a JavaScript template literal does. -/
def renderHeaderHtml (visual : VisualIdentity) : String :=
  "\n      <!DOCTYPE html>\n      <html lang=\"zh-CN\" class=\"scroll-smooth\">\n      <head><link href=\""
    ++ visual.fontConfig.googleFontUrl ++ "\" rel=\"stylesheet\"></head>\n      <body class=\"bg-"
    ++ visual.palette ++ "-50 text-" ++ visual.palette ++ "-900\"><header><img src=\""
    ++ visual.heroImage.getD "undefined" ++ "\" alt=\"" ++ visual.destination ++ "\" /><h1>"
    ++ visual.destination ++ "</h1><span>" ++ toString visual.duration ++ " 天</span><span>"
    ++ visual.vibe ++ "</span></header>\n    "

/-- The overview markup (static styling abbreviated). -/
def renderOverviewHtml (palette summary : String) (highlights : List Highlight) : String :=
  let highlightsHtml := String.intercalate "" (highlights.map (fun h =>
    "<div class=\"bg-" ++ palette ++ "-50/60\"><div>" ++ jsOrStr h.icon "✦" ++ "</div><span>"
      ++ h.title ++ "</span><span>" ++ h.desc ++ "</span></div>"))
  "<div class=\"overview\"><h2>旅程概览</h2><p>\"" ++ summary ++ "\"</p>"
    ++ highlightsHtml ++ "</div><main>"

/-- The footer markup (static styling abbreviated). -/
def renderFooterHtml (palette : String) : String :=
  "</main><footer class=\"bg-" ++ palette
    ++ "-900\"><p>Wanderlust AI</p><p>由 GLM 4.7 深度思考模式驱动 × 高德地图实时数据支持 × 并行Agent架构</p></footer></body></html>"

/-- The per-day portion of the stream: for each result in sorted order, a
progress marker, a log line and the day's markup. -/
def streamDayChunks (results : List DayGenerationResult) : List StreamChunk :=
  (results.enum.map (fun p =>
    [ StreamChunk.progress (if p.1 = 0 then .day1 else .remaining)
        (30 + jsRoundFrac ((p.1 + 1) * 60) results.length) (some p.2.dayNumber),
      StreamChunk.log (">>> 🗓️ Day " ++ toString p.2.dayNumber ++ ": " ++ p.2.skeleton.title
        ++ " 已生成 (" ++ toString p.2.generatedAt ++ "ms)\n"),
      StreamChunk.dayHtml p.2.dayNumber p.2.html ])).flatten

/-- The oracles a full pipeline run consumes, stage by stage: the scene
analysis (its own fallback makes it total), the media insights, the
visual-identity stage's outcome (network + `parseAIJsonResponse`), the
hero images, the skeleton stage's parsed payload, and the per-day worker
oracles. -/
structure GenOracles where
  sceneAnalysis : SceneAnalysis
  mediaInsights : List String
  visual : Except String VisualIdentity
  heroImages : List String
  itinerary : Except String ItineraryStructure
  parse : String → Option (List RawActivity)
  searchPlace : String → String → Option AmapPOI
  enc : String → String
  dayImages : DayPlanSkeleton → List String
  dayNetwork : DayPlanSkeleton → Except String String

/-- `generateTravelPlanStream`: the sequence of yields of the async
generator, in source order, paired with the error it rethrows from its
`catch` block (`none` on a completed run).  Each failing stage yields the
`>>> ❌` line and rethrows; the skeleton payload is emitted once, only
after the visual and skeleton stages both succeed, and per-day fragments
only after that. -/
def generateTravelPlanStream (o : GenOracles) (_details : TripDetails) :
    List StreamChunk × Option String :=
  let pre1 : List StreamChunk :=
    [ .progress .skeleton 5 none,
      .log ">>> 📡 IntentAgent: 正在分析你的旅行需求...\n" ]
    ++ (if o.mediaInsights.length > 0 then
          [ .log (">>> 📸 视觉智能体：已提取 " ++ toString o.mediaInsights.length ++ " 条旅行灵感\n") ]
        else [])
    ++ [ .log (">>> 🎯 场景识别：" ++ sceneTypeName o.sceneAnalysis.sceneType
          ++ " (置信度: " ++ toString o.sceneAnalysis.confidencePct ++ "%)\n"),
        .log (">>> 📝 快速摘要：" ++ o.sceneAnalysis.quickSummary ++ "\n"),
        .progress .header 10 none,
        .log ">>> 🎨 艺术总监：正在为你的旅程定制专属视觉风格...\n" ]
  match o.visual with
  | .error e => (pre1 ++ [.errorLog (">>> ❌ 哎呀出错了：" ++ e)], some e)
  | .ok visual0 =>
      let visual := { visual0 with heroImage := o.heroImages.head? }
      let pre2 := pre1
        ++ [ .log (">>> 🎨 视觉风格：" ++ visual0.vibe ++ "（" ++ visual0.palette ++ " 色系）\n"),
            .htmlStart (renderHeaderHtml visual),
            .progress .overview 20 none,
            .log ">>> 🗺️ 行程规划师：正在构建你的专属行程框架...\n" ]
      match o.itinerary with
      | .error e => (pre2 ++ [.errorLog (">>> ❌ 哎呀出错了：" ++ e)], some e)
      | .ok data =>
          let fullSkeleton := generateItineraryStructure visual data
          let pre3 := pre2
            ++ [ .skeletonPayload fullSkeleton,
                .htmlFragment (renderOverviewHtml visual.palette data.summary data.highlights),
                .progress .day1 30 none,
                .log ">>> 🚀 DayAgent: 启动并行生成，正在规划所有天数...\n" ]
          match generateDaysParallel
              (fun sk => dayAgentGenerate o.parse o.searchPlace o.enc (o.dayImages sk)
                (o.dayNetwork sk) sk fullSkeleton)
              data.days with
          | .error e => (pre3 ++ [.errorLog (">>> ❌ 哎呀出错了：" ++ e)], some e)
          | .ok dayResults =>
              (pre3 ++ streamDayChunks dayResults
                ++ [ .progress .complete 100 none,
                    .htmlFragment (renderFooterHtml visual.palette),
                    .log ">>> ✨ 行程规划完成！" ], none)

/-- Whether a chunk is the terminal skeleton payload or a per-day markup
fragment. -/
def isSkeletonOrDayChunk : StreamChunk → Bool
  | .skeletonPayload _ => true
  | .dayHtml _ _ => true
  | _ => false

/-- C4: when the visual-identity stage's response cannot be parsed, the
whole run aborts — the generator rethrows the error to its caller, no
fallback `VisualIdentity` is substituted, and the emitted chunk sequence
contains no skeleton payload and no per-day fragment. -/
theorem generateTravelPlanStream_abortOnVisualFailure (o : GenOracles)
    (details : TripDetails) (e : String) (h : o.visual = .error e) :
    (generateTravelPlanStream o details).2 = some e ∧
    (generateTravelPlanStream o details).1.all
      (fun c => !(isSkeletonOrDayChunk c)) = true := by
  unfold generateTravelPlanStream
  rw [h]
  refine ⟨rfl, ?_⟩
  by_cases hm : o.mediaInsights.length > 0 <;>
    simp [hm, isSkeletonOrDayChunk]

/-- A concrete oracle bundle whose visual-identity stage fails to parse. -/
def visualFailureOracles : GenOracles :=
  { sceneAnalysis :=
      { sceneType := .relaxation, confidencePct := 60, quickSummary := "s",
        recommendedTemplate := "relaxation_template", keyHighlights := [], detectedKeywords := [] }
    mediaInsights := []
    visual := .error "No valid JSON object found in response"
    heroImages := []
    itinerary := .ok { summary := "", highlights := [], days := [] }
    parse := fun _ => none
    searchPlace := fun _ _ => none
    enc := fun s => s
    dayImages := fun _ => []
    dayNetwork := fun _ => .ok "" }

/-- Witness for the C4 theorem at a concrete failing run. -/
theorem generateTravelPlanStream_abortOnVisualFailure_witness :
    (generateTravelPlanStream visualFailureOracles { prompt := "Tokyo, 3 days" }).2
        = some "No valid JSON object found in response" ∧
    (generateTravelPlanStream visualFailureOracles { prompt := "Tokyo, 3 days" }).1.all
        (fun c => !(isSkeletonOrDayChunk c)) = true :=
  generateTravelPlanStream_abortOnVisualFailure visualFailureOracles
    { prompt := "Tokyo, 3 days" } "No valid JSON object found in response" rfl

/-! ## Single-day edit splice: `submitModification` (src/App.tsx) -/

/-- Case-insensitive literal match of `pat` against the head of `suffix`
(the splice regex carries the `i` flag). -/
def matchesHere (suffix pat : List Char) : Bool :=
  decide ((suffix.take pat.length).map Char.toLower = pat.map Char.toLower)

/-- The scanning loop of the regex engine's leftmost-match rule: try the
pattern at the current index, else advance one character. -/
def findFromGo (pat : List Char) : Nat → List Char → Option Nat
  | i, [] => if matchesHere [] pat then some i else none
  | i, c :: rest =>
      if matchesHere (c :: rest) pat then some i else findFromGo pat (i + 1) rest

/-- The position of the first match of `pat` at or after `start` — the
regex engine's leftmost-match rule. -/
def findFrom (doc pat : List Char) (start : Nat) : Option Nat :=
  findFromGo pat start (doc.drop start)

/-- The literal head of the splice pattern
`<section id="day-${modifyingDay}"`. -/
def sectionOpenTag (day : Nat) : List Char :=
  ("<section id=\"day-" ++ toString day ++ "\"").data

/-- The literal tail of the splice pattern, `</section>`. -/
def sectionCloseTag : List Char :=
  "</section>".data

/-- The `generatedHtml.replace(regex, newDayHtml)` step of
`submitModification` with the non-global regex
`<section id="day-N"[\s\S]*?<\/section>` (flag `i`): leftmost match of the
open tag, then — lazily — the nearest close tag at or after the open tag's
end; the matched range is replaced once.  `none` when the regex does not
match (the source then alerts and leaves the document unchanged). -/
def replaceDaySection (day : Nat) (newHtml doc : List Char) : Option (List Char) :=
  match findFrom doc (sectionOpenTag day) 0 with
  | none => none
  | some i =>
      match findFrom doc sectionCloseTag (i + (sectionOpenTag day).length) with
      | none => none
      | some j => some (doc.take i ++ newHtml ++ doc.drop (j + sectionCloseTag.length))

/-- `submitModification`'s state update of `generatedHtml` after
`regenerateDayPlan` returned `newDayHtml`: splice on a regex match, keep
the document unchanged otherwise (`alert` path).  The boolean reports
whether the splice happened. -/
def submitModification (modifyingDay : Nat) (newDayHtml generatedHtml : List Char) :
    List Char × Bool :=
  match replaceDaySection modifyingDay newDayHtml generatedHtml with
  | some updated => (updated, true)
  | none => (generatedHtml, false)


/-! ## Version ledger: `FeedbackAgent.createVersionHistory` and
`handleRestoreVersion` (src/services/agent/dayAgent.ts, src/App.tsx) -/

/-- A change's scope: `'global' | 'local'`. -/
inductive ChangeScope where
  | globalScope
  | localScope
deriving DecidableEq, Repr

/-- `VersionChange`. -/
structure VersionChange where
  type : ChangeScope
  day : Option Nat := none
  description : String
  timestamp : Nat
deriving DecidableEq, Repr

/-- `VersionHistory`: one snapshot of the ledger. -/
structure VersionHistory where
  id : String
  version : Nat
  timestamp : Nat
  author : String
  changes : List VersionChange
  skeleton : TripSkeleton
  summary : String
deriving DecidableEq, Repr

/-- `FeedbackAgent.generateVersionSummary`. -/
def generateVersionSummary (changes : List VersionChange) : String :=
  let globalChanges := changes.countP (fun c => decide (c.type = ChangeScope.globalScope))
  let localChanges := changes.countP (fun c => decide (c.type = ChangeScope.localScope))
  let parts :=
    (if globalChanges > 0 then [toString globalChanges ++ "项全局修改"] else [])
    ++ (if localChanges > 0 then [toString localChanges ++ "天调整"] else [])
  jsOrStr (String.intercalate "，" parts) "行程更新"

/-- `FeedbackAgent.createVersionHistory`: the new snapshot's number is the
previous snapshot's number plus one, or 1 from an empty ledger; `now`
models `Date.now()`. -/
def createVersionHistory (now : Nat) (skeleton : TripSkeleton)
    (changes : List VersionChange) (author : String)
    (previousVersion : Option VersionHistory) : VersionHistory :=
  let version :=
    match previousVersion with
    | some pv => pv.version + 1
    | none => 1
  { id := "v" ++ toString version ++ "_" ++ toString now
    version := version
    timestamp := now
    author := author
    changes := changes
    skeleton := skeleton
    summary := generateVersionSummary changes }

/-- A chat bubble of the follow-up panel. -/
structure ChatMessage where
  role : String
  content : String
deriving DecidableEq, Repr

/-- The `App` component state touched by version restoration. -/
structure AppState where
  tripSkeleton : Option TripSkeleton
  versionHistory : List VersionHistory
  chatMessages : List ChatMessage
  showVersionHistory : Bool
deriving DecidableEq, Repr

/-- `handleRestoreVersion` (src/App.tsx): set the current skeleton to the
restored snapshot's skeleton, add a chat message, close the history modal —
and nothing else.  (The guard `if (!version.skeleton) return` never fires
for a well-typed snapshot, whose `skeleton` field is always present.) -/
def handleRestoreVersion (version : VersionHistory) (st : AppState) : AppState :=
  { st with
      tripSkeleton := some version.skeleton
      chatMessages := st.chatMessages ++
        [{ role := "assistant",
           content := "已回滚到版本 " ++ toString version.version ++ " (" ++ version.summary ++ ")" }]
      showVersionHistory := false }

/-- C9: restoring a snapshot leaves the ledger list untouched — snapshots
`1..n` are neither deleted nor mutated (the true half of the claim), but
no snapshot `n+1` recording the rollback is appended either (refuting the
other half): the ledger after restoration is byte-for-byte the ledger
before, while only the displayed skeleton changes.  The code's own confirm
dialog promises "当前版本将作为新版本保存" (the current version will be
saved as a new version), which the handler does not do. -/
theorem handleRestoreVersion_noAppend (version : VersionHistory) (st : AppState) :
    (handleRestoreVersion version st).versionHistory = st.versionHistory ∧
    (handleRestoreVersion version st).versionHistory.length = st.versionHistory.length ∧
    (handleRestoreVersion version st).tripSkeleton = some version.skeleton :=
  ⟨rfl, rfl, rfl⟩

/-! ## Single-day regeneration: `regenerateDayPlan`
(src/services/glmService.test.ts) -/

/-- The failure modes of `regenerateDayPlan`: the explicit
`throw new Error("Day not found")`, a rejected collaborator call, and a
`parseAIJsonResponse` failure. -/
inductive RegenError where
  | dayNotFound
  | glmError (e : String)
  | malformedResponse (e : JsonParseError)
deriving DecidableEq, Repr

/-- A network call issued by `regenerateDayPlan`, in issue order. -/
inductive NetCall where
  | fetchImages (keyword : String)
  | generateContent
  | amapSearch (name city : String)
deriving DecidableEq, Repr

/-- `String.prototype.padStart(2, '0')` on a day number. -/
def padStart2 (n : Nat) : String :=
  if n < 10 then "0" ++ toString n else toString n

/-- `renderDayToHtml` (src/services/glmService.test.ts; static styling and
inline SVG markup abbreviated, every dynamic interpolation kept in source
order). -/
def renderDayToHtml (enc : String → String) (dayData : DayPlan) (palette : String)
    (stockImages : List String) : String :=
  let mainActivity := dayData.activities.head?
  let mapLink :=
    match mainActivity with
    | some a =>
        if jsTruthyNum a.location.lat && jsTruthyNum a.location.lng then
          "https://www.amap.com/search?query=" ++ enc a.location.name
        else
          "https://www.amap.com/search?query=" ++ enc (dayData.city ++ " " ++ dayData.title)
    | none => "https://www.amap.com/search?query=" ++ enc (dayData.city ++ " " ++ dayData.title)
  let imagesHtml := String.intercalate "" ((stockImages.take 3).map (fun img =>
    "<div class=\"relative bg-" ++ palette ++ "-50\"><img src=\"" ++ img
      ++ "\" alt=\"Day Visual\" /></div>"))
  let activitiesHtml := String.intercalate "" (dayData.activities.map (fun act =>
    "<div class=\"relative\"><span class=\"bg-" ++ palette ++ "-50 text-" ++ palette
      ++ "-600\">" ++ act.time ++ "</span><h3>" ++ act.title ++ "</h3><p>"
      ++ act.description ++ "</p><a href=\"https://www.amap.com/search?query="
      ++ enc act.location.name ++ "\">" ++ act.location.name ++ "</a>"
      ++ (if jsTruthyStr act.tips then
            "<div class=\"tips\">" ++ act.tips.getD "" ++ "</div>"
          else "")
      ++ "</div>"))
  "\n    <section id=\"day-" ++ toString dayData.day
    ++ "\" class=\"mb-32 break-inside-avoid relative group transition-all duration-500\"><div class=\"text-9xl font-black text-"
    ++ palette ++ "-100\">" ++ padStart2 dayData.day ++ "</div><h2>" ++ dayData.title
    ++ "</h2><p>" ++ dayData.theme ++ "</p>" ++ imagesHtml ++ "<a href=\"" ++ mapLink
    ++ "\">高德地图导航 "
    ++ (match mainActivity with
        | some a => a.location.name
        | none => dayData.city)
    ++ " 及周边</a>" ++ activitiesHtml
    ++ "<button onclick=\"window.parent.postMessage(\x7btype: 'MODIFY_DAY', day: "
    ++ toString dayData.day ++ "\x7d, window.location.origin)\">我想修改 Day "
    ++ toString dayData.day ++ "</button></section>\n  "

/-- `regenerateDayPlan`: look the target day up in the skeleton — throwing
`"Day not found"` before any collaborator call when it is missing — then
fetch stock images, call the text collaborator, parse its response with
`parseAIJsonResponse`, enrich the activities with place lookups, and
render the day's markup.  The second component records the network calls
issued, in order. -/
def regenerateDayPlan (fetchImages : String → List String) (glm : Except String String)
    (jsonDecode : List Char → Option DayPlan)
    (searchPlace : String → String → Option AmapPOI) (enc : String → String)
    (skeleton : TripSkeleton) (dayIndex : Nat) (modificationPrompt : String) :
    Except RegenError String × List NetCall :=
  match skeleton.days.find? (fun d => decide (d.day = dayIndex)) with
  | none => (.error .dayNotFound, [])
  | some daySkeleton =>
      let keyword := daySkeleton.visualKeyword ++ " " ++ modificationPrompt
      let stockImages := fetchImages keyword
      match glm with
      | .error e => (.error (.glmError e), [.fetchImages keyword, .generateContent])
      | .ok responseText =>
          match parseAIJsonResponse jsonDecode responseText.data with
          | .error pe => (.error (.malformedResponse pe), [.fetchImages keyword, .generateContent])
          | .ok dayData =>
              let searchCity := jsOrStr dayData.city skeleton.destination
              let enriched := dayData.activities.map (fun a =>
                if a.location.name ≠ "" then
                  match searchPlace a.location.name searchCity with
                  | some poi =>
                      { a with location :=
                          { a.location with
                              lat := some poi.lat, lng := some poi.lng, address := poi.address } }
                  | none => a
                else a)
              let amapCalls := (dayData.activities.filter
                  (fun a => decide (a.location.name ≠ ""))).map
                (fun a => NetCall.amapSearch a.location.name searchCity)
              (.ok (renderDayToHtml enc { dayData with activities := enriched }
                  skeleton.palette stockImages),
                [.fetchImages keyword, .generateContent] ++ amapCalls)

/-- C10: when no skeleton day carries the requested day number,
`regenerateDayPlan` rejects with the `"Day not found"` error having issued
no network call at all; when a matching day exists, the lookup succeeds
and that error branch is never taken, whatever the collaborators do. -/
theorem regenerateDayPlan_dayLookup (fetchImages : String → List String)
    (glm : Except String String) (jsonDecode : List Char → Option DayPlan)
    (searchPlace : String → String → Option AmapPOI) (enc : String → String)
    (skeleton : TripSkeleton) (dayIndex : Nat) (modificationPrompt : String) :
    (skeleton.days.find? (fun d => decide (d.day = dayIndex)) = none →
        regenerateDayPlan fetchImages glm jsonDecode searchPlace enc skeleton dayIndex
          modificationPrompt = (.error .dayNotFound, []))
    ∧ (∀ ds, skeleton.days.find? (fun d => decide (d.day = dayIndex)) = some ds →
        (regenerateDayPlan fetchImages glm jsonDecode searchPlace enc skeleton dayIndex
          modificationPrompt).1 ≠ .error .dayNotFound) := by
  constructor
  · intro h
    unfold regenerateDayPlan
    rw [h]
  · intro ds h
    unfold regenerateDayPlan
    rw [h]
    dsimp only
    cases glm with
    | error e => simp
    | ok responseText =>
        dsimp only
        rcases hp : parseAIJsonResponse jsonDecode responseText.data with pe | dd <;>
          dsimp only <;> simp

/-- A concrete one-day trip used by the C10 witness. -/
def oneDayTrip : TripSkeleton :=
  { sampleTrip with days := [sampleDaySkeleton] }

/-- Witness for the C10 theorem: asking for day 2 of a one-day skeleton
rejects with the day-not-found error and an empty call trace. -/
theorem regenerateDayPlan_dayLookup_witness :
    regenerateDayPlan (fun _ => []) (Except.ok "") (fun _ => none) (fun _ _ => none)
        (fun s => s) oneDayTrip 2 "relax" = (.error .dayNotFound, []) :=
  (regenerateDayPlan_dayLookup (fun _ => []) (Except.ok "") (fun _ => none) (fun _ _ => none)
    (fun s => s) oneDayTrip 2 "relax").1 (by decide)

/-- The day-1 plan of the C8 failing input's document. -/
def generatedDayOnePlan : DayPlan :=
  { day := 1, title := "Day 1", theme := "food", city := "Tokyo", activities := [] }

/-- The day-2 plan of the C8 failing input (the day the user edits). -/
def generatedDayTwoPlan : DayPlan :=
  { day := 2, title := "Day 2", theme := "culture", city := "Tokyo", activities := [] }

/-- The C8 failing input's document: days 1 and 2 exactly as the
pipeline's renderer `DayAgent.generateHTML` yields them. -/
def generatedDayDoc : List Char :=
  ((generateHTML (fun s => s) sampleTrip sampleDaySkeleton generatedDayOnePlan [])
    ++ generateHTML (fun s => s) sampleTrip sampleDaySkeleton2 generatedDayTwoPlan []).data

section
set_option maxRecDepth 100000
set_option maxHeartbeats 4000000
/-- C8: the pipeline's day markup is rendered by `DayAgent.generateHTML`,
which opens each day's section as `<section class="day-section mb-8"
data-day="N">` — there is no `id` attribute — while `submitModification`
splices via the regex `<section id="day-N"[\s\S]*?<\/section>`.  On a
generated document the regex therefore never matches: the edit takes the
`alert("无法定位原始行程代码")` branch and returns the document unchanged,
so day `d`'s rendered section is never replaced at all.  (Only
`renderDayToHtml` — the renderer of the replacement markup itself, kept
from the deprecated pre-DayAgent pipeline — emits `id="day-N"`.)  The
first conjunct exhibits the generated section head; the second evaluates
the edit on the generated two-day document. -/
theorem submitModification_generatedDoc_unchanged :
    generatedDayDoc.take
        ("\n      <section class=\"day-section mb-8\" data-day=\"1\">".data.length)
      = "\n      <section class=\"day-section mb-8\" data-day=\"1\">".data ∧
    submitModification 2
        (renderDayToHtml (fun s => s) generatedDayTwoPlan "stone" []).data
        generatedDayDoc
      = (generatedDayDoc, false) :=
  ⟨by decide, rfl⟩

end

end Wanderlust
